import Mathlib

/-!
Shallow embedding of the Binana rebalancing-and-order-execution pipeline
(`src/binana/async_main.py`) and proofs about it.

Money, prices and quantities are embedded as rationals (`ℚ`): the Python
code manipulates them as decimal numbers and every claim under study is
about their exact arithmetic relationships, not about IEEE float rounding.
Remote calls (the Binance client) are embedded as explicit function
parameters; exceptions raised by a remote call become an `Except` value.
-/

namespace Binana

/-- The constant `USD_SYMBOL = 'USD'` from `async_main.py`. -/
def USD_SYMBOL : String := "USD"

/-- Modelled from the spec: `round_step_size` is imported from the external
`binance.helpers` package, which is not under `src/`.  The spec describes it
as truncating toward zero on the step grid (never rounding up), so it is
modelled as `step * ⌊x / step⌋`, which truncates for the non-negative inputs
the pipeline feeds it. -/
def round_step_size (x step : ℚ) : ℚ :=
  step * ⌊x / step⌋

/-- Per-symbol exchange constraints, as assembled by `get_all_symbol_info`
from the PRICE_FILTER, LOT_SIZE and MIN_NOTIONAL filters. -/
structure SymbolInfo where
  tickSize : ℚ
  minPrice : ℚ
  maxPrice : ℚ
  stepSize : ℚ
  minQty : ℚ
  maxQty : ℚ
  minNotional : ℚ
  deriving Repr, DecidableEq

/-- A raw account balance entry as returned by the exchange:
`{asset, free, locked}`. -/
structure RawBalance where
  asset : String
  free : ℚ
  locked : ℚ
  deriving Repr, DecidableEq

/-- A balance entry after `get_account_balances` has attached the computed
`total` field. -/
structure Balance where
  asset : String
  free : ℚ
  locked : ℚ
  total : ℚ
  deriving Repr, DecidableEq

/-- The `Asset` record populated by `get_portfolio_assets` and (after the
external `invest_balanced` step) carrying `amount_invested` in cents. -/
structure Asset where
  account_id : String
  symbol : String
  quantity : ℚ
  initial_balance : ℚ
  amount_invested : ℚ := 0
  deriving Repr, DecidableEq

/-- The constant `ACCOUNT_ID = 'binance'`. -/
def ACCOUNT_ID : String := "binance"

/-- `get_cash_investment_amount` (`async_main.py` lines 64-74):
`min(investment_amount, usd_balance - 10)`.  The module-global
`investment_amount` is threaded as an explicit argument. -/
def get_cash_investment_amount (investment_amount usd_balance : ℚ) : ℚ :=
  min investment_amount (usd_balance - 10)

/-- `get_account_balances` (`async_main.py` lines 76-90): for each raw
balance compute `total = free + locked`, replace the USD entry's total by
`get_cash_investment_amount`, attach `total` only when it is strictly
positive, and keep exactly the entries that got a `total`. -/
def get_account_balances (investment_amount : ℚ) : List RawBalance → List Balance
  | [] => []
  | b :: rest =>
    let t0 := b.free + b.locked
    let t := if b.asset = USD_SYMBOL then get_cash_investment_amount investment_amount t0 else t0
    if 0 < t then
      ⟨b.asset, b.free, b.locked, t⟩ :: get_account_balances investment_amount rest
    else
      get_account_balances investment_amount rest

/-- `get_portfolio_assets` (`async_main.py` lines 160-180): one `Asset` per
balance entry, with `initial_balance = avg_price * total * 100` (cents). -/
def get_portfolio_assets (account_balances : List Balance) (avg_prices : String → ℚ) : List Asset :=
  account_balances.map fun balance =>
    { account_id := ACCOUNT_ID
      symbol := balance.asset
      quantity := balance.total
      initial_balance := avg_prices balance.asset * balance.total * 100 }

/-- A validated order about to be submitted: the `(symbol, quantity, price)`
triple passed to `order(...)` by `submit_buy_orders`. -/
structure ProposedOrder where
  symbol : String
  quantity : ℚ
  price : ℚ
  deriving Repr, DecidableEq

/-- The five bound checks of `submit_buy_orders` (lines 244-253), in source
order.  The Python code produces a formatted string for each; the embedding
keeps the classification. -/
inductive FailureReason where
  | priceLow
  | priceHigh
  | qtyLow
  | qtyHigh
  | notionalLow
  deriving Repr, DecidableEq

/-- The `failureReason` if/elif chain of `submit_buy_orders`
(lines 241-253), applied to the rounded price and quantity; `notional` is
`price * quantity` exactly as computed on line 241. -/
def failureReason (info : SymbolInfo) (price quantity : ℚ) : Option FailureReason :=
  let notional := price * quantity
  if price < info.minPrice then some .priceLow
  else if price > info.maxPrice then some .priceHigh
  else if quantity < info.minQty then some .qtyLow
  else if quantity > info.maxQty then some .qtyHigh
  else if notional < info.minNotional then some .notionalLow
  else none

/-- Outcome marker of an order result: `result` is `'SUCCESS'` or
`'FAILURE'` in the Python dict. -/
inductive OrderOutcome where
  | success
  | failure
  deriving Repr, DecidableEq

/-- A Python exception as observed by the `except` block of `order`:
`type(e).__name__` and `str(e)`. -/
structure PyError where
  name : String
  message : String
  deriving Repr, DecidableEq

/-- The result dict built by `order` (`async_main.py` lines 182-222):
always carries symbol, quantity, price and notional; `response` on success,
`exception_type` on failure. -/
structure OrderResult where
  symbol : String
  quantity : ℚ
  price : ℚ
  notional : ℚ
  result : OrderOutcome
  response : Option String
  exception_type : Option String
  deriving Repr, DecidableEq

/-- `order` (`async_main.py` lines 182-222).  The remote call
(`create_test_order` / `create_order`) is the explicit parameter `remote`;
an exception it raises is an `Except.error`.  The `try/except` block turns
any error into a `FAILURE` result value instead of propagating it. -/
def order (remote : ProposedOrder → Except PyError String) (o : ProposedOrder) : OrderResult :=
  let notional := o.price * o.quantity
  match remote o with
  | .ok response =>
    { symbol := o.symbol, quantity := o.quantity, price := o.price, notional := notional
      result := .success, response := some response, exception_type := none }
  | .error e =>
    { symbol := o.symbol, quantity := o.quantity, price := o.price, notional := notional
      result := .failure, response := none, exception_type := some e.name }

/-- The order-building loop of `submit_buy_orders` (lines 232-259).  Returns
the `tasks` list (orders that will be submitted remotely) together with the
log of per-asset rejections printed on line 256 (symbol and reason), in
iteration order. -/
def submit_buy_orders_tasks (avg_prices : String → ℚ) (all_symbol_info : String → SymbolInfo) :
    List Asset → List ProposedOrder × List (String × FailureReason)
  | [] => ([], [])
  | asset :: rest =>
    if asset.amount_invested ≤ 0 then
      submit_buy_orders_tasks avg_prices all_symbol_info rest
    else
      let info := all_symbol_info asset.symbol
      let dollar_investment := asset.amount_invested / 100
      let quantity := round_step_size (dollar_investment / avg_prices asset.symbol) info.stepSize
      let price := round_step_size (avg_prices asset.symbol) info.tickSize
      let tail := submit_buy_orders_tasks avg_prices all_symbol_info rest
      match failureReason info price quantity with
      | some r => (tail.1, (asset.symbol, r) :: tail.2)
      | none => (⟨asset.symbol, quantity, price⟩ :: tail.1, tail.2)

/-- The `results = await asyncio.gather(*tasks)` step of `submit_buy_orders`
(line 261): every built task is run through `order` and yields exactly one
result value. -/
def submit_buy_orders_results (remote : ProposedOrder → Except PyError String)
    (avg_prices : String → ℚ) (all_symbol_info : String → SymbolInfo)
    (assets : List Asset) : List OrderResult :=
  ((submit_buy_orders_tasks avg_prices all_symbol_info assets).1).map (order remote)

/-- The aggregation on line 263 of `submit_buy_orders`:
`cash_spent = sum(result.notional for result in results if result.result == 'SUCCESS')`. -/
def cash_spent (results : List OrderResult) : ℚ :=
  ((results.filter fun r => r.result = OrderOutcome.success).map (fun r => r.notional)).sum

/-- One `(symbol, weight)` entry of an allocation category. -/
structure AllocatedAsset where
  symbol : String
  weight : ℚ
  deriving Repr, DecidableEq

/-- A named category of allocated assets, built with `with_asset`. -/
structure AllocationCategory where
  name : String
  assets : List AllocatedAsset := []
  deriving Repr, DecidableEq

/-- The builder `AllocationCategory.with_asset(symbol, weight)`. -/
def AllocationCategory.with_asset (c : AllocationCategory) (symbol : String) (weight : ℚ) :
    AllocationCategory :=
  { c with assets := c.assets ++ [⟨symbol, weight⟩] }

/-- The allocation tree: an ordered list of categories. -/
structure Allocation where
  categories : List AllocationCategory := []
  deriving Repr, DecidableEq

/-- The builder `Allocation.with_category(category)`. -/
def Allocation.with_category (a : Allocation) (c : AllocationCategory) : Allocation :=
  { a with categories := a.categories ++ [c] }

/-- All `(symbol, weight)` entries across all categories, in order. -/
def allocation_assets (a : Allocation) : List AllocatedAsset :=
  (a.categories.map fun c => c.assets).flatten

/-- All weights across all categories, in order. -/
def allocation_weights (a : Allocation) : List ℚ :=
  (allocation_assets a).map fun x => x.weight

/-- All symbols across all categories, in order. -/
def allocation_symbols (a : Allocation) : List String :=
  (allocation_assets a).map fun x => x.symbol

/-- Boolean check that no symbol occurs twice. -/
def nodup_symbols : List String → Bool
  | [] => true
  | s :: rest => (!(rest.contains s)) && nodup_symbols rest

/-- Modelled from the spec: `Allocation.verify` lives in the external
`portfolio_manager` package, which is not under `src/`.  Per the spec it
checks that every weight is non-negative, that the weights across all
categories sum to 1 within tolerance `1e-6`, and that each symbol appears
at most once; on violation it raises `InvalidAllocationError` (embedded as
the check returning `false`). -/
def Allocation.verify (a : Allocation) : Bool :=
  ((allocation_weights a).all fun w => decide (0 ≤ w)) &&
    decide (|(allocation_weights a).sum - 1| ≤ 1 / 1000000) &&
    nodup_symbols (allocation_symbols a)

/-- The module-level `ALLOCATION` value of `async_main.py` (lines 30-47),
built with the same builder chain and the same weights. -/
def ALLOCATION : Allocation :=
  (({} : Allocation).with_category
      ((AllocationCategory.mk "Large Cap" [])
        |>.with_asset "ETH" (23/100)
        |>.with_asset "BTC" (18/100)
        |>.with_asset "ADA" (14/100)
        |>.with_asset "SOL" (5/100))
    |>.with_category
      ((AllocationCategory.mk "Mid Cap" [])
        |>.with_asset "LINK" (13/100)
        |>.with_asset "MATIC" (13/100)
        |>.with_asset "UNI" (9/100)
        |>.with_asset "DOT" (5/100))
    |>.with_category
      ((AllocationCategory.mk "Other" [])
        |>.with_asset "BNB" 0))

/-- Fixture: a permissive trading rule whose only binding constraint is
`minNotional = 10`. -/
def fixtureInfo : SymbolInfo :=
  { tickSize := 1, minPrice := 0, maxPrice := 1000000
    stepSize := 1, minQty := 0, maxQty := 1000000, minNotional := 10 }

/-- Fixture: an asset with `amount_invested` of 800 cents ($8): at price 1
its notional 8 violates `minNotional = 10`. -/
def rejectedAsset : Asset :=
  { account_id := ACCOUNT_ID, symbol := "BTC", quantity := 0
    initial_balance := 0, amount_invested := 800 }

/-- Fixture: an asset with `amount_invested` of 2000 cents ($20): at price 1
its order passes every bound of `fixtureInfo`. -/
def validAsset : Asset :=
  { account_id := ACCOUNT_ID, symbol := "ETH", quantity := 0
    initial_balance := 0, amount_invested := 2000 }

/-- Fixture: a held position with weight 0 (the "Other/BNB" pattern), whose
`amount_invested` is 0. -/
def zeroWeightAsset : Asset :=
  { account_id := ACCOUNT_ID, symbol := "BNB", quantity := 2
    initial_balance := 600, amount_invested := 0 }

/-- C4: the rounding function used for price and quantity is idempotent and
truncating: `round_down(round_down(x, step), step) == round_down(x, step)`
and `round_down(x, step) <= x` for non-negative `x` and positive `step`. -/
theorem round_step_size_idempotent_and_truncating (x step : ℚ)
    (hx : 0 ≤ x) (hstep : 0 < step) :
    round_step_size (round_step_size x step) step = round_step_size x step ∧
      round_step_size x step ≤ x := by
  have hne : step ≠ 0 := ne_of_gt hstep
  constructor
  · unfold round_step_size
    rw [mul_div_cancel_left₀ _ hne, Int.floor_intCast]
  · calc round_step_size x step = step * ⌊x / step⌋ := rfl
      _ ≤ step * (x / step) :=
        mul_le_mul_of_nonneg_left (Int.floor_le _) (le_of_lt hstep)
      _ = x := by field_simp

/-- Witness for C4 at `x = 7`, `step = 2`
(`round_step_size 7 2 = 6`). -/
theorem round_step_size_idempotent_and_truncating_witness :
    (0 : ℚ) ≤ 7 ∧ (0 : ℚ) < 2 ∧
      (round_step_size (round_step_size 7 2) 2 = round_step_size 7 2 ∧
        round_step_size (7 : ℚ) 2 ≤ 7) :=
  ⟨by norm_num, by norm_num,
    round_step_size_idempotent_and_truncating 7 2 (by norm_num) (by norm_num)⟩

/-- C1: the validator tests the bounds in exactly the order
price < minPrice, price > maxPrice, quantity < minQty, quantity > maxQty,
notional < minNotional, and the produced reason (when any) is exactly the
first violated bound, so at most one reason is ever produced per order. -/
theorem failureReason_first_violation_wins (info : SymbolInfo) (price quantity : ℚ) :
    (failureReason info price quantity = some .priceLow ↔ price < info.minPrice) ∧
    (failureReason info price quantity = some .priceHigh ↔
      ¬price < info.minPrice ∧ price > info.maxPrice) ∧
    (failureReason info price quantity = some .qtyLow ↔
      ¬price < info.minPrice ∧ ¬price > info.maxPrice ∧ quantity < info.minQty) ∧
    (failureReason info price quantity = some .qtyHigh ↔
      ¬price < info.minPrice ∧ ¬price > info.maxPrice ∧ ¬quantity < info.minQty ∧
        quantity > info.maxQty) ∧
    (failureReason info price quantity = some .notionalLow ↔
      ¬price < info.minPrice ∧ ¬price > info.maxPrice ∧ ¬quantity < info.minQty ∧
        ¬quantity > info.maxQty ∧ price * quantity < info.minNotional) ∧
    (failureReason info price quantity = none ↔
      ¬price < info.minPrice ∧ ¬price > info.maxPrice ∧ ¬quantity < info.minQty ∧
        ¬quantity > info.maxQty ∧ ¬price * quantity < info.minNotional) := by
  unfold failureReason
  split_ifs <;> simp_all

/-- Witness for C1 at a concrete order (price 1, quantity 8 against
`fixtureInfo`): the only violated bound is the notional minimum, and it is
the reason produced. -/
theorem failureReason_first_violation_wins_witness :
    failureReason fixtureInfo 1 8 = some FailureReason.notionalLow ∧
    (failureReason fixtureInfo 1 8 = some FailureReason.notionalLow ↔
      ¬(1 : ℚ) < fixtureInfo.minPrice ∧ ¬(1 : ℚ) > fixtureInfo.maxPrice ∧
        ¬(8 : ℚ) < fixtureInfo.minQty ∧ ¬(8 : ℚ) > fixtureInfo.maxQty ∧
        (1 : ℚ) * 8 < fixtureInfo.minNotional) :=
  ⟨by norm_num [failureReason, fixtureInfo],
    (failureReason_first_violation_wins fixtureInfo 1 8).2.2.2.2.1⟩

/-- Helper: the boolean symbol-duplication check agrees with `List.Nodup`. -/
theorem nodup_symbols_iff (l : List String) : nodup_symbols l = true ↔ l.Nodup := by
  induction l with
  | nil => simp [nodup_symbols]
  | cons s rest ih => simp [nodup_symbols, List.nodup_cons, ih, List.elem_iff]

/-- C8: `verify()` succeeds exactly when every weight is non-negative, the
weights across all categories sum to 1 within tolerance `1e-6`, and each
symbol appears at most once; moreover the concrete `ALLOCATION` of
`async_main.py` passes `verify()`. -/
theorem allocation_verify_characterization :
    (∀ a : Allocation, a.verify = true ↔
      ((∀ w ∈ allocation_weights a, 0 ≤ w) ∧
        |(allocation_weights a).sum - 1| ≤ 1 / 1000000 ∧
        (allocation_symbols a).Nodup)) ∧
    ALLOCATION.verify = true := by
  constructor
  · intro a
    simp [Allocation.verify, nodup_symbols_iff, and_assoc]
  · show (_ && _ && _) = true
    rw [Bool.and_eq_true, Bool.and_eq_true]
    refine ⟨⟨?_, ?_⟩, ?_⟩
    · norm_num [ALLOCATION, Allocation.with_category, AllocationCategory.with_asset,
        allocation_weights, allocation_assets]
    · norm_num [ALLOCATION, Allocation.with_category, AllocationCategory.with_asset,
        allocation_weights, allocation_assets]
    · rfl

/-- Helper: every order result is marked either `SUCCESS` or `FAILURE`, so
the two counts partition any result list. -/
theorem count_success_add_count_failure (l : List OrderResult) :
    l.countP (fun r => decide (r.result = OrderOutcome.success)) +
      l.countP (fun r => decide (r.result = OrderOutcome.failure)) = l.length := by
  induction l with
  | nil => simp
  | cons r rest ih =>
    cases hr : r.result <;> simp [List.countP_cons, hr] <;> omega

/-- C2: for a batch of N orders, any failure of an individual remote call is
captured and returned as a `FAILURE` result value carrying the classified
cause and the order's notional, never propagated; the result set has exactly
N entries, exactly M marked failed when M remote calls fail, and
successCount + failedCount = N. -/
theorem order_batch_failure_isolation (remote : ProposedOrder → Except PyError String)
    (reqs : List ProposedOrder) :
    (reqs.map (order remote)).length = reqs.length ∧
    (reqs.map (order remote)).countP (fun r => decide (r.result = OrderOutcome.failure)) =
      reqs.countP (fun q => match remote q with | .error _ => true | .ok _ => false) ∧
    (reqs.map (order remote)).countP (fun r => decide (r.result = OrderOutcome.success)) +
      (reqs.map (order remote)).countP (fun r => decide (r.result = OrderOutcome.failure)) =
      reqs.length ∧
    (∀ q ∈ reqs, (order remote q).notional = q.price * q.quantity) ∧
    (∀ q ∈ reqs, ∀ e, remote q = .error e →
      (order remote q).result = OrderOutcome.failure ∧
      (order remote q).exception_type = some e.name) := by
  refine ⟨List.length_map _ _, ?_, ?_, ?_, ?_⟩
  · induction reqs with
    | nil => simp
    | cons q rest ih =>
      cases h : remote q <;> simp [List.countP_cons, order, h, ih]
  · rw [count_success_add_count_failure, List.length_map]
  · intro q _
    cases h : remote q <;> simp [order, h]
  · intro q _ e he
    simp [order, he]

/-- Witness for C2 on a concrete batch of three orders whose remote call
fails exactly for the middle one. -/
theorem order_batch_failure_isolation_witness :
    ([⟨"A", 1, 2⟩, ⟨"BAD", 3, 4⟩, ⟨"B", 5, 6⟩] : List ProposedOrder).countP
        (fun q => match (fun o : ProposedOrder =>
          if o.symbol = "BAD" then Except.error (ε := PyError) ⟨"BinanceAPIException", "rejected"⟩
          else Except.ok "fill") q with | .error _ => true | .ok _ => false) = 1 ∧
    (([⟨"A", 1, 2⟩, ⟨"BAD", 3, 4⟩, ⟨"B", 5, 6⟩] : List ProposedOrder).map
        (order (fun o : ProposedOrder =>
          if o.symbol = "BAD" then Except.error ⟨"BinanceAPIException", "rejected"⟩
          else Except.ok "fill"))).countP
      (fun r => decide (r.result = OrderOutcome.failure)) =
    ([⟨"A", 1, 2⟩, ⟨"BAD", 3, 4⟩, ⟨"B", 5, 6⟩] : List ProposedOrder).countP
        (fun q => match (fun o : ProposedOrder =>
          if o.symbol = "BAD" then Except.error (ε := PyError) ⟨"BinanceAPIException", "rejected"⟩
          else Except.ok "fill") q with | .error _ => true | .ok _ => false) :=
  ⟨by rfl,
    (order_batch_failure_isolation
      (fun o : ProposedOrder =>
        if o.symbol = "BAD" then Except.error ⟨"BinanceAPIException", "rejected"⟩
        else Except.ok "fill")
      [⟨"A", 1, 2⟩, ⟨"BAD", 3, 4⟩, ⟨"B", 5, 6⟩]).2.1⟩

/-- C5: the aggregated cash spent is the sum of the notionals of exactly the
results marked `SUCCESS`; every other result contributes nothing. -/
theorem cash_spent_sums_success_notionals (results : List OrderResult) :
    cash_spent results =
      (results.map fun r =>
        if r.result = OrderOutcome.success then r.notional else 0).sum := by
  induction results with
  | nil => simp [cash_spent]
  | cons r rest ih =>
    simp only [cash_spent, List.filter_cons] at ih ⊢
    by_cases h : r.result = OrderOutcome.success <;> simp [h, ih]

/-- Witness for C8: the characterization applied to the concrete
`ALLOCATION`, which passes `verify()`. -/
theorem allocation_verify_characterization_witness :
    (ALLOCATION.verify = true ↔
      ((∀ w ∈ allocation_weights ALLOCATION, 0 ≤ w) ∧
        |(allocation_weights ALLOCATION).sum - 1| ≤ 1 / 1000000 ∧
        (allocation_symbols ALLOCATION).Nodup)) ∧
    ALLOCATION.verify = true :=
  ⟨allocation_verify_characterization.1 ALLOCATION,
    allocation_verify_characterization.2⟩

/-- Witness for C5 at a concrete two-element result list: only the
successful result's notional is counted. -/
theorem cash_spent_sums_success_notionals_witness :
    cash_spent
        [{ symbol := "A", quantity := 1, price := 5, notional := 5,
           result := OrderOutcome.success, response := some "ok", exception_type := none },
         { symbol := "B", quantity := 1, price := 7, notional := 7,
           result := OrderOutcome.failure, response := none,
           exception_type := some "Timeout" }] = 5 ∧
    cash_spent
        [{ symbol := "A", quantity := 1, price := 5, notional := 5,
           result := OrderOutcome.success, response := some "ok", exception_type := none },
         { symbol := "B", quantity := 1, price := 7, notional := 7,
           result := OrderOutcome.failure, response := none,
           exception_type := some "Timeout" }] =
      (([{ symbol := "A", quantity := 1, price := 5, notional := 5,
           result := OrderOutcome.success, response := some "ok", exception_type := none },
         { symbol := "B", quantity := 1, price := 7, notional := 7,
           result := OrderOutcome.failure, response := none,
           exception_type := some "Timeout" }] : List OrderResult).map fun r =>
        if r.result = OrderOutcome.success then r.notional else 0).sum :=
  ⟨by simp [cash_spent, List.filter_cons], cash_spent_sums_success_notionals _⟩

/-- C3 counterexample: an asset whose proposed order violates
`minNotional` ($8 against a $10 minimum) is only printed to the rejection
log; the batch result list is empty, so no `OrderResult` with a `Rejected`
outcome is ever recorded, contrary to the claim. -/
theorem rejected_order_missing_from_results_cex :
    submit_buy_orders_tasks (fun _ => 1) (fun _ => fixtureInfo) [rejectedAsset] =
      ([], [("BTC", FailureReason.notionalLow)]) ∧
    submit_buy_orders_results (fun _ => Except.ok "filled") (fun _ => 1) (fun _ => fixtureInfo)
      [rejectedAsset] = [] := by
  have h : submit_buy_orders_tasks (fun _ => 1) (fun _ => fixtureInfo) [rejectedAsset] =
      ([], [("BTC", FailureReason.notionalLow)]) := by
    norm_num [submit_buy_orders_tasks, rejectedAsset, fixtureInfo, failureReason, round_step_size]
  exact ⟨h, by simp [submit_buy_orders_results, h]⟩

/-- C3 (amended): for every asset whose proposed order violates a
trading-rule bound, no remote call is made for it (it never enters the task
list), processing continues with the remaining assets, and the rejection is
only logged with its failing reason — it does not appear in the batch
result list. -/
theorem rejected_asset_only_logged (avg_prices : String → ℚ)
    (all_symbol_info : String → SymbolInfo) (a : Asset) (rest : List Asset)
    (r : FailureReason) (remote : ProposedOrder → Except PyError String)
    (hpos : 0 < a.amount_invested)
    (hrej : failureReason (all_symbol_info a.symbol)
        (round_step_size (avg_prices a.symbol) (all_symbol_info a.symbol).tickSize)
        (round_step_size (a.amount_invested / 100 / avg_prices a.symbol)
          (all_symbol_info a.symbol).stepSize) = some r) :
    submit_buy_orders_tasks avg_prices all_symbol_info (a :: rest) =
      ((submit_buy_orders_tasks avg_prices all_symbol_info rest).1,
        (a.symbol, r) :: (submit_buy_orders_tasks avg_prices all_symbol_info rest).2) ∧
    submit_buy_orders_results remote avg_prices all_symbol_info (a :: rest) =
      submit_buy_orders_results remote avg_prices all_symbol_info rest := by
  have hne : ¬a.amount_invested ≤ 0 := not_le.mpr hpos
  refine ⟨?_, ?_⟩ <;>
    simp [submit_buy_orders_tasks, submit_buy_orders_results, if_neg hne, hrej]

/-- Witness for C3 (amended) at the concrete `rejectedAsset` scenario. -/
theorem rejected_asset_only_logged_witness :
    (0 : ℚ) < rejectedAsset.amount_invested ∧
    (submit_buy_orders_tasks (fun _ => 1) (fun _ => fixtureInfo) [rejectedAsset] =
        ((submit_buy_orders_tasks (fun _ => 1) (fun _ => fixtureInfo) []).1,
          ("BTC", FailureReason.notionalLow) ::
            (submit_buy_orders_tasks (fun _ => 1) (fun _ => fixtureInfo) []).2) ∧
      submit_buy_orders_results (fun _ => Except.ok "filled") (fun _ => 1)
          (fun _ => fixtureInfo) [rejectedAsset] =
        submit_buy_orders_results (fun _ => Except.ok "filled") (fun _ => 1)
          (fun _ => fixtureInfo) []) :=
  ⟨by norm_num [rejectedAsset],
    by
      have := rejected_asset_only_logged (fun _ => 1) (fun _ => fixtureInfo) rejectedAsset []
        FailureReason.notionalLow (fun _ => Except.ok "filled")
        (by norm_num [rejectedAsset])
        (by norm_num [failureReason, round_step_size, fixtureInfo, rejectedAsset])
      simpa [rejectedAsset] using this⟩

/-- C6: for an asset with positive `amount_invested`, the loop computes
`quantity = round_down(dollar_investment / price, stepSize)` (with
`dollar_investment = amount_invested / 100`),
`price = round_down(price, tickSize)`, and checks exactly these values (and
`notional = price * quantity`) against the bounds; when no bound fails, the
submitted order carries exactly these values, and its result records
`notional = price * quantity`. -/
theorem valid_asset_order_computation (avg_prices : String → ℚ)
    (all_symbol_info : String → SymbolInfo) (a : Asset) (rest : List Asset)
    (remote : ProposedOrder → Except PyError String)
    (hpos : 0 < a.amount_invested)
    (hok : failureReason (all_symbol_info a.symbol)
        (round_step_size (avg_prices a.symbol) (all_symbol_info a.symbol).tickSize)
        (round_step_size (a.amount_invested / 100 / avg_prices a.symbol)
          (all_symbol_info a.symbol).stepSize) = none) :
    (submit_buy_orders_tasks avg_prices all_symbol_info (a :: rest)).1 =
      (⟨a.symbol,
        round_step_size (a.amount_invested / 100 / avg_prices a.symbol)
          (all_symbol_info a.symbol).stepSize,
        round_step_size (avg_prices a.symbol) (all_symbol_info a.symbol).tickSize⟩ :
          ProposedOrder) ::
        (submit_buy_orders_tasks avg_prices all_symbol_info rest).1 ∧
    submit_buy_orders_results remote avg_prices all_symbol_info (a :: rest) =
      order remote
          ⟨a.symbol,
            round_step_size (a.amount_invested / 100 / avg_prices a.symbol)
              (all_symbol_info a.symbol).stepSize,
            round_step_size (avg_prices a.symbol) (all_symbol_info a.symbol).tickSize⟩ ::
        submit_buy_orders_results remote avg_prices all_symbol_info rest ∧
    ∀ o : ProposedOrder,
      (order remote o).quantity = o.quantity ∧
      (order remote o).price = o.price ∧
      (order remote o).notional = o.price * o.quantity := by
  have hne : ¬a.amount_invested ≤ 0 := not_le.mpr hpos
  refine ⟨?_, ?_, ?_⟩
  · simp [submit_buy_orders_tasks, if_neg hne, hok]
  · simp [submit_buy_orders_results, submit_buy_orders_tasks, if_neg hne, hok]
  · intro o
    cases h : remote o <;> simp [order, h]

/-- Witness for C6 at the concrete `validAsset` scenario ($20 at price 1,
quantity 20, notional 20 ≥ minNotional 10). -/
theorem valid_asset_order_computation_witness :
    (0 : ℚ) < validAsset.amount_invested ∧
    failureReason fixtureInfo
        (round_step_size 1 fixtureInfo.tickSize)
        (round_step_size (validAsset.amount_invested / 100 / 1) fixtureInfo.stepSize) = none ∧
    (submit_buy_orders_tasks (fun _ => 1) (fun _ => fixtureInfo) [validAsset]).1 =
      [(⟨"ETH",
          round_step_size (validAsset.amount_invested / 100 / 1) fixtureInfo.stepSize,
          round_step_size 1 fixtureInfo.tickSize⟩ : ProposedOrder)] :=
  ⟨by norm_num [validAsset],
    by norm_num [failureReason, round_step_size, fixtureInfo, validAsset],
    by
      have := valid_asset_order_computation (fun _ => 1) (fun _ => fixtureInfo) validAsset []
        (fun _ => Except.ok "filled")
        (by norm_num [validAsset])
        (by norm_num [failureReason, round_step_size, fixtureInfo, validAsset])
      simpa [validAsset, submit_buy_orders_tasks] using this.1⟩

/-- C9: an asset whose `amount_invested` is zero or negative is skipped by
the order loop before any rounding, validation or submission (the loop
output is unchanged), while `get_portfolio_assets` still creates a held
position for every balance entry. -/
theorem nonpositive_investment_skipped (avg_prices : String → ℚ)
    (all_symbol_info : String → SymbolInfo) (a : Asset) (rest : List Asset)
    (balances : List Balance)
    (h : a.amount_invested ≤ 0) :
    submit_buy_orders_tasks avg_prices all_symbol_info (a :: rest) =
      submit_buy_orders_tasks avg_prices all_symbol_info rest ∧
    (get_portfolio_assets balances avg_prices).map (fun x => (x.symbol, x.quantity)) =
      balances.map (fun b => (b.asset, b.total)) := by
  constructor
  · simp [submit_buy_orders_tasks, if_pos h]
  · simp [get_portfolio_assets, List.map_map]

/-- Witness for C9 at the concrete `zeroWeightAsset` (BNB, weight 0). -/
theorem nonpositive_investment_skipped_witness :
    zeroWeightAsset.amount_invested ≤ 0 ∧
    (submit_buy_orders_tasks (fun _ => 1) (fun _ => fixtureInfo) [zeroWeightAsset] =
        submit_buy_orders_tasks (fun _ => 1) (fun _ => fixtureInfo) [] ∧
      (get_portfolio_assets [⟨"BNB", 2, 0, 2⟩] (fun _ => 1)).map (fun x => (x.symbol, x.quantity)) =
        ([⟨"BNB", 2, 0, 2⟩] : List Balance).map (fun b => (b.asset, b.total))) :=
  ⟨by norm_num [zeroWeightAsset],
    nonpositive_investment_skipped (fun _ => 1) (fun _ => fixtureInfo) zeroWeightAsset []
      [⟨"BNB", 2, 0, 2⟩] (by norm_num [zeroWeightAsset])⟩

/-- C10: `get_account_balances` replaces the USD entry's total by
`min(investment_amount, free + locked - 10)`, keeps exactly the entries
whose computed total is strictly positive, and in particular omits the USD
entry entirely whenever the cash balance `free + locked` is at most 10. -/
theorem account_balances_filter_spec (investment_amount : ℚ) (bs : List RawBalance)
    (f l : ℚ) (rest : List RawBalance)
    (husd : f + l ≤ 10) :
    get_account_balances investment_amount bs = bs.filterMap (fun b =>
        let t := if b.asset = USD_SYMBOL then min investment_amount (b.free + b.locked - 10)
          else b.free + b.locked
        if 0 < t then some ⟨b.asset, b.free, b.locked, t⟩ else none) ∧
    get_account_balances investment_amount (⟨"USD", f, l⟩ :: rest) =
      get_account_balances investment_amount rest := by
  constructor
  · induction bs with
    | nil => simp [get_account_balances]
    | cons b rest2 ih =>
      simp only [get_account_balances, List.filterMap_cons, get_cash_investment_amount]
      split_ifs <;> simp_all
  · have h2 : min investment_amount (f + l - 10) ≤ 0 :=
      le_trans (min_le_right _ _) (by linarith)
    simp [get_account_balances, get_cash_investment_amount, USD_SYMBOL, not_lt.mpr h2]

/-- Witness for C10: a $5 USD balance is dropped, a positive BTC balance is
kept. -/
theorem account_balances_filter_spec_witness :
    (5 : ℚ) + 0 ≤ 10 ∧
    (get_account_balances 200 [⟨"USD", 5, 0⟩, ⟨"BTC", 1, 2⟩] =
        ([⟨"USD", 5, 0⟩, ⟨"BTC", 1, 2⟩] : List RawBalance).filterMap (fun b =>
          let t := if b.asset = USD_SYMBOL then min 200 (b.free + b.locked - 10)
            else b.free + b.locked
          if 0 < t then some ⟨b.asset, b.free, b.locked, t⟩ else none) ∧
      get_account_balances 200 (⟨"USD", 5, 0⟩ :: [⟨"BTC", 1, 2⟩]) =
        get_account_balances 200 [⟨"BTC", 1, 2⟩]) :=
  ⟨by norm_num,
    account_balances_filter_spec 200 [⟨"USD", 5, 0⟩, ⟨"BTC", 1, 2⟩] 5 0 [⟨"BTC", 1, 2⟩]
      (by norm_num)⟩

/-- C7 counterexample: a held position of one unit of an asset priced at
$0.001 gets `initial_balance = 0.001 * 1 * 100 = 0.1` cents, which is not an
integer number of cents — the position's value is a plain float in cents
scale, never constrained to integer cents. -/
theorem asset_value_fractional_cents_cex :
    (get_portfolio_assets [⟨"ADA", 1, 0, 1⟩] (fun _ => 1 / 1000)).map
        (fun a => a.initial_balance) = [1 / 10] ∧
    ¬∃ n : ℤ, ((1 : ℚ) / 10) = (n : ℚ) := by
  constructor
  · norm_num [get_portfolio_assets]
  · rintro ⟨n, hn⟩
    have h10 : (1 : ℤ) = n * 10 := by
      field_simp at hn
      exact_mod_cast hn
    omega

/-- C7 (amended): `get_portfolio_assets` stores each position's current
value in cents scale as `avg_price * total * 100`, an unconstrained
(floating-point) number that may be fractional. -/
theorem asset_value_cents_scale (balances : List Balance) (avg_prices : String → ℚ) :
    (get_portfolio_assets balances avg_prices).map (fun a => a.initial_balance) =
      balances.map (fun b => avg_prices b.asset * b.total * 100) := by
  simp [get_portfolio_assets, List.map_map]

end Binana
